import Mathlib

/-!
Shallow embedding of the timer core of the cosmic-pomodoro application
(src/core/pomodoro_timer.rs and the timer-related message handling in
src/app.rs), together with theorems about the phase state machine, the
countdown clock and the view's progress computation.

Modelling conventions:
* Rust `u32`/`usize` values are embedded as `Nat`.  The only subtraction in
  the program, the clock decrement, is guarded by `remaining > 0` in the
  source, so no wraparound can occur; a separate `Int`-valued embedding of
  the clock tick (`clockTickZ`) is used to state that the counter is never
  driven below zero.
* The activation channel (`counter_pipe` / `from_countdown`) is modelled as
  a level-triggered boolean flag `clock_active` that each send updates
  immediately; the clock-thread loop body becomes the function `clockTick`.
* The `settings` field and all rendering/notification I/O are omitted: they
  do not influence the timer state.  The duration-selection logic of the
  view (`initial_secs`) is embedded because the progress computation depends
  on it.
-/

/-- `PomodoroLength` from src/core/pomodoro_timer.rs: an immutable pair of a
focus duration and a relax duration, in seconds. -/
structure PomodoroLength where
  focus : Nat
  relax : Nat
deriving DecidableEq

/-- `PomodoroState` from src/core/pomodoro_timer.rs (the run-state). -/
inductive PomodoroState where
  | Stop
  | Run
  | Pause
deriving DecidableEq

/-- `PomodoroPhase` from src/core/pomodoro_timer.rs. -/
inductive PomodoroPhase where
  | BeforeFocus
  | Focus
  | BeforeRelax
  | Relax
deriving DecidableEq

/-- The `PomodoroTimer` struct from src/core/pomodoro_timer.rs.  The
`counter_pipe` sender and the clock thread's `is_active` variable are fused
into the level-triggered flag `clock_active`; `remaining_sec` is the shared
atomic counter. -/
structure PomodoroTimer where
  pomodoro_lengths : List PomodoroLength
  position : Nat
  pomodoro_state : PomodoroState
  pomodoro_phase : PomodoroPhase
  remaining_sec : Nat
  clock_active : Bool
deriving DecidableEq

/-- The hard-coded phase sequence built in `PomodoroTimer::new`
(the active, uncommented `pomodoro_lengths` vector). -/
def defaultLengths : List PomodoroLength :=
  [⟨10, 5⟩, ⟨7, 4⟩]

/-- `pomodoro_lengths[position]` as used throughout src/app.rs; under the
invariant `position < pomodoro_lengths.length` the default is never used. -/
def PomodoroTimer.currentLength (t : PomodoroTimer) : PomodoroLength :=
  t.pomodoro_lengths.getD t.position ⟨0, 0⟩

/-- `PomodoroTimer::new`: position 0, state `Stop`, phase `BeforeFocus`, and
the shared counter initialised to `pomodoro_lengths[0].focus`; the freshly
spawned clock thread starts with `is_active = false`. -/
def PomodoroTimer.new : PomodoroTimer :=
  { pomodoro_lengths := defaultLengths
    position := 0
    pomodoro_state := PomodoroState.Stop
    pomodoro_phase := PomodoroPhase.BeforeFocus
    remaining_sec := (defaultLengths.getD 0 ⟨0, 0⟩).focus
    clock_active := false }

/-- `PomodoroTimer::start`: send `true` on the activation channel and set the
run-state to `Run`.  It does not touch `remaining_sec`. -/
def PomodoroTimer.start (t : PomodoroTimer) : PomodoroTimer :=
  { t with clock_active := true, pomodoro_state := PomodoroState.Run }

/-- `PomodoroTimer::pause`: send `false` and set the run-state to `Pause`. -/
def PomodoroTimer.pause (t : PomodoroTimer) : PomodoroTimer :=
  { t with clock_active := false, pomodoro_state := PomodoroState.Pause }

/-- `PomodoroTimer::resume`: send `true` and set the run-state to `Run`. -/
def PomodoroTimer.resume (t : PomodoroTimer) : PomodoroTimer :=
  { t with clock_active := true, pomodoro_state := PomodoroState.Run }

/-- `PomodoroTimer::stop`: send `false` and set the run-state to `Stop`. -/
def PomodoroTimer.stop (t : PomodoroTimer) : PomodoroTimer :=
  { t with clock_active := false, pomodoro_state := PomodoroState.Stop }

/-- `PomodoroTimer::reset`: `stop()`, then store 0 into the shared counter
and set `position` to 0. -/
def PomodoroTimer.reset (t : PomodoroTimer) : PomodoroTimer :=
  { t.stop with remaining_sec := 0, position := 0 }

/-- One iteration of the clock-thread loop in `PomodoroTimer::new`: if the
clock is active and the counter is positive, `fetch_sub(1)`; otherwise leave
the state unchanged. -/
def clockTick (t : PomodoroTimer) : PomodoroTimer :=
  if t.clock_active ∧ 0 < t.remaining_sec then
    { t with remaining_sec := t.remaining_sec - 1 }
  else t

/-- `n` iterations of the clock-thread loop. -/
def clockTicks : Nat → PomodoroTimer → PomodoroTimer
  | 0, t => t
  | n + 1, t => clockTicks n (clockTick t)

/-- The clock-thread decrement over the integers: the same guard
`is_active && remaining > 0` as in the source, applied to an unbounded
counter, so that "never decremented below zero" is a contentful statement
about the guard rather than an artefact of truncated subtraction. -/
def clockTickZ (isActive : Bool) (remaining : Int) : Int :=
  if isActive ∧ 0 < remaining then remaining - 1 else remaining

/-- Iterated integer clock ticks, one activation flag per tick. -/
def runClockZ (flags : List Bool) (remaining : Int) : Int :=
  flags.foldl (fun r a => clockTickZ a r) remaining

/-- The phase-advance `match` in the `Message::StartTimer` handler
(src/app.rs, `PomodoroState::Stop` arm). -/
def nextPhase : PomodoroPhase → PomodoroPhase
  | PomodoroPhase.BeforeFocus => PomodoroPhase.Focus
  | PomodoroPhase.Focus => PomodoroPhase.BeforeRelax
  | PomodoroPhase.BeforeRelax => PomodoroPhase.Relax
  | PomodoroPhase.Relax => PomodoroPhase.BeforeFocus

/-- The `Message::StartTimer` handler of `CosmicPomodoro::update`
(src/app.rs): the user toggle.  From `Stop`, advance the phase along the
cycle and call `start()`; from `Run`, `pause()`; from `Pause`, `resume()`. -/
def startTimer (t : PomodoroTimer) : PomodoroTimer :=
  match t.pomodoro_state with
  | PomodoroState.Stop =>
      ({ t with pomodoro_phase := nextPhase t.pomodoro_phase }).start
  | PomodoroState.Run => t.pause
  | PomodoroState.Pause => t.resume

/-- The `Message::Refresh` handler of `CosmicPomodoro::update` (src/app.rs):
the zero-reached transition function, with the notification side effects
dropped.  A no-op unless `remaining_sec == 0`; then dispatch on the phase:
`Focus` moves to `BeforeRelax`, stops the clock, reloads the relax duration
of the current position, and if the window is focused immediately sets the
phase to `Relax` and calls `start()`; `Relax` advances the position (wrapping
to 0 past the end), moves to `BeforeFocus`, stops the clock and reloads the
focus duration of the new position; the `Before` phases do nothing. -/
def refresh (isFocused : Bool) (t : PomodoroTimer) : PomodoroTimer :=
  if t.remaining_sec = 0 then
    match t.pomodoro_phase with
    | PomodoroPhase.BeforeFocus => t
    | PomodoroPhase.Focus =>
        let t1 := ({ t with pomodoro_phase := PomodoroPhase.BeforeRelax }).stop
        let t2 := { t1 with remaining_sec := t1.currentLength.relax }
        if isFocused then
          ({ t2 with pomodoro_phase := PomodoroPhase.Relax }).start
        else t2
    | PomodoroPhase.BeforeRelax => t
    | PomodoroPhase.Relax =>
        let newPos :=
          if t.pomodoro_lengths.length ≤ t.position + 1 then 0
          else t.position + 1
        let t1 := ({ t with position := newPos
                            pomodoro_phase := PomodoroPhase.BeforeFocus }).stop
        { t1 with remaining_sec := t1.currentLength.focus }
  else t

/-- The `initial_secs` selection at the top of `CosmicPomodoro::view`
(src/app.rs): the relax duration in phase `Relax`, the focus duration in
phase `Focus`, and 0 in the two `Before` phases. -/
def initial_secs (t : PomodoroTimer) : Nat :=
  if t.pomodoro_phase = PomodoroPhase.Relax then t.currentLength.relax
  else if t.pomodoro_phase = PomodoroPhase.Focus then t.currentLength.focus
  else 0

/-- Events that the program delivers to the timer without user interaction:
a clock-thread tick, or one poll of the `Message::Refresh` handler with the
current window-focus flag. -/
inductive Event where
  | tick : Event
  | refreshEv : Bool → Event

/-- Apply one event. -/
def stepEvent : Event → PomodoroTimer → PomodoroTimer
  | Event.tick, t => clockTick t
  | Event.refreshEv b, t => refresh b t

/-- Apply a sequence of events in order. -/
def runEvents (es : List Event) (t : PomodoroTimer) : PomodoroTimer :=
  es.foldl (fun t e => stepEvent e t) t

/-- Every operation on the timer state, user interaction included: the
clock tick, the two UI messages, and the five `PomodoroTimer` methods. -/
inductive Op where
  | tick : Op
  | userToggle : Op
  | refreshOp : Bool → Op
  | startOp : Op
  | pauseOp : Op
  | resumeOp : Op
  | stopOp : Op
  | resetOp : Op

/-- Apply one operation. -/
def stepOp : Op → PomodoroTimer → PomodoroTimer
  | Op.tick, t => clockTick t
  | Op.userToggle, t => startTimer t
  | Op.refreshOp b, t => refresh b t
  | Op.startOp, t => t.start
  | Op.pauseOp, t => t.pause
  | Op.resumeOp, t => t.resume
  | Op.stopOp, t => t.stop
  | Op.resetOp, t => t.reset

/-- C9: `stop()` sets the run-state to `Stopped` and leaves the counter,
the position and the phase unchanged; `reset()` additionally zeroes the
counter and the position, still leaving the phase unchanged. -/
theorem c9_stop_reset_frame (t : PomodoroTimer) :
    t.stop.pomodoro_state = PomodoroState.Stop ∧
    t.stop.remaining_sec = t.remaining_sec ∧
    t.stop.position = t.position ∧
    t.stop.pomodoro_phase = t.pomodoro_phase ∧
    t.reset.pomodoro_state = PomodoroState.Stop ∧
    t.reset.remaining_sec = 0 ∧
    t.reset.position = 0 ∧
    t.reset.pomodoro_phase = t.pomodoro_phase := by
  refine ⟨rfl, rfl, rfl, rfl, rfl, rfl, rfl, rfl⟩

/-- C10: after `reset()`, one user toggle advances the phase one step along
the cycle from the phase that `reset` preserved, sets the run-state to
`Running`, and leaves the counter at 0: the toggle-then-start path loads no
phase duration, so the countdown begins at zero. -/
theorem c10_toggle_after_reset (t : PomodoroTimer) :
    (startTimer t.reset).pomodoro_phase = nextPhase t.pomodoro_phase ∧
    (startTimer t.reset).pomodoro_state = PomodoroState.Run ∧
    (startTimer t.reset).remaining_sec = 0 := by
  refine ⟨rfl, rfl, rfl⟩

/-- C7 counterexample: the counter returned by `PomodoroTimer::new` is not
initialised to 0. -/
theorem c7_counterexample : ¬ PomodoroTimer.new.remaining_sec = 0 := by
  decide

/-- C7 (amended): constructing the timer returns a shared counter whose
initial value is the focus duration of the first sequence entry, 10 in the
hard-coded list. -/
theorem c7_initial_counter :
    PomodoroTimer.new.remaining_sec = (defaultLengths.getD 0 ⟨0, 0⟩).focus ∧
    PomodoroTimer.new.remaining_sec = 10 := by
  exact ⟨rfl, rfl⟩

/-- C8 (Scenario A): from the freshly constructed timer, one user toggle
yields phase `Focus`, 10 remaining seconds and run-state `Running`; after 10
clock ticks and one `on_tick_check(false)` the state is phase `BeforeRelax`,
5 remaining seconds and run-state `Stopped`. -/
theorem c8_scenario_a :
    (startTimer PomodoroTimer.new).pomodoro_phase = PomodoroPhase.Focus ∧
    (startTimer PomodoroTimer.new).remaining_sec = 10 ∧
    (startTimer PomodoroTimer.new).pomodoro_state = PomodoroState.Run ∧
    (refresh false (clockTicks 10 (startTimer PomodoroTimer.new))).pomodoro_phase
      = PomodoroPhase.BeforeRelax ∧
    (refresh false (clockTicks 10 (startTimer PomodoroTimer.new))).remaining_sec = 5 ∧
    (refresh false (clockTicks 10 (startTimer PomodoroTimer.new))).pomodoro_state
      = PomodoroState.Stop := by
  decide

/-- The integer clock tick never drives a nonnegative counter negative. -/
theorem clockTickZ_nonneg (a : Bool) (c : Int) (h : 0 ≤ c) :
    0 ≤ clockTickZ a c := by
  unfold clockTickZ
  by_cases hc : (a = true) ∧ 0 < c
  · rw [if_pos hc]
    omega
  · rw [if_neg hc]
    exact h

/-- Iterated integer clock ticks never drive a nonnegative counter
negative. -/
theorem runClockZ_nonneg (flags : List Bool) :
    ∀ c : Int, 0 ≤ c → 0 ≤ runClockZ flags c := by
  induction flags with
  | nil =>
      intro c h
      exact h
  | cons a as ih =>
      intro c h
      exact ih (clockTickZ a c) (clockTickZ_nonneg a c h)

/-- C2: one clock tick decrements the counter by exactly 1 when the
activation flag is set and the counter is positive, and leaves the counter
unchanged otherwise; consequently no sequence of ticks ever drives a
nonnegative counter below zero. -/
theorem c2_tick_behavior (a : Bool) (c : Int) (flags : List Bool)
    (h : 0 ≤ c) :
    (a = true → 0 < c → clockTickZ a c = c - 1) ∧
    (a = false ∨ c ≤ 0 → clockTickZ a c = c) ∧
    0 ≤ runClockZ flags c := by
  refine ⟨?_, ?_, runClockZ_nonneg flags c h⟩
  · intro ha hc
    unfold clockTickZ
    rw [if_pos ⟨ha, hc⟩]
  · intro hno
    unfold clockTickZ
    rw [if_neg]
    rintro ⟨ha, hc⟩
    rcases hno with hno | hno
    · rw [hno] at ha
      exact Bool.false_ne_true ha
    · omega

/-- C2 witness: the tick behaviour at flag `true`, counter 5, and the flag
sequence `[true, false, true]`. -/
theorem c2_tick_behavior_witness :
    (0 : Int) ≤ 5 ∧
    ((true = true → (0 : Int) < 5 → clockTickZ true 5 = 5 - 1) ∧
     (true = false ∨ (5 : Int) ≤ 0 → clockTickZ true 5 = 5) ∧
     0 ≤ runClockZ [true, false, true] 5) :=
  ⟨by decide, c2_tick_behavior true 5 [true, false, true] (by decide)⟩

/-- When the clock is inactive, iterating the clock-thread loop leaves the
whole timer state unchanged. -/
theorem clockTicks_inactive (n : Nat) :
    ∀ t : PomodoroTimer, t.clock_active = false → clockTicks n t = t := by
  induction n with
  | zero =>
      intro t _
      rfl
  | succ m ih =>
      intro t h
      have h1 : clockTick t = t := by
        unfold clockTick
        rw [if_neg]
        rintro ⟨ha, _⟩
        rw [h] at ha
        exact Bool.false_ne_true ha
      show clockTicks m (clockTick t) = t
      rw [h1]
      exact ih t h

/-- C5: from a running state, `pause()` followed by any number of clock
ticks followed by `resume()` leaves the counter unchanged (no decrement
occurs while paused) and returns the run-state to `Running`. -/
theorem c5_pause_ticks_resume (t : PomodoroTimer) (n : Nat)
    (h : t.pomodoro_state = PomodoroState.Run) :
    ((clockTicks n t.pause).resume).remaining_sec = t.remaining_sec ∧
    ((clockTicks n t.pause).resume).pomodoro_state = PomodoroState.Run := by
  have hp : clockTicks n t.pause = t.pause := clockTicks_inactive n t.pause rfl
  rw [hp]
  exact ⟨rfl, rfl⟩

/-- C5 witness: the freshly toggled timer is running; pausing, ticking three
times and resuming preserves its 10 remaining seconds. -/
theorem c5_pause_ticks_resume_witness :
    (startTimer PomodoroTimer.new).pomodoro_state = PomodoroState.Run ∧
    (((clockTicks 3 (startTimer PomodoroTimer.new).pause).resume).remaining_sec
        = (startTimer PomodoroTimer.new).remaining_sec ∧
      ((clockTicks 3 (startTimer PomodoroTimer.new).pause).resume).pomodoro_state
        = PomodoroState.Run) :=
  ⟨by decide, c5_pause_ticks_resume (startTimer PomodoroTimer.new) 3 (by decide)⟩

/-- C1 counterexample: a stopped state in phase `Focus` whose current focus
duration is 10 but whose counter is 0; `start()` leaves the counter at 0
instead of loading the 10-second focus duration.  The state is reached by
`reset()`, one user toggle and `stop()` on the fresh timer. -/
theorem c1_counterexample :
    ((startTimer PomodoroTimer.new.reset).stop).pomodoro_state
      = PomodoroState.Stop ∧
    ((startTimer PomodoroTimer.new.reset).stop).pomodoro_phase
      = PomodoroPhase.Focus ∧
    ((startTimer PomodoroTimer.new.reset).stop).currentLength.focus = 10 ∧
    (((startTimer PomodoroTimer.new.reset).stop).start).remaining_sec = 0 ∧
    ¬ (((startTimer PomodoroTimer.new.reset).stop).start).remaining_sec
        = ((startTimer PomodoroTimer.new.reset).stop).currentLength.focus := by
  decide

/-- C1 (amended): from a stopped state, `start()` activates the clock and
sets the run-state to `Running`, leaving the counter unchanged; the phase
duration is loaded into the counter by the callers (at construction and in
the zero-reached transitions), not by `start()` itself. -/
theorem c1_start_effect (t : PomodoroTimer)
    (h : t.pomodoro_state = PomodoroState.Stop) :
    t.start.remaining_sec = t.remaining_sec ∧
    t.start.clock_active = true ∧
    t.start.pomodoro_state = PomodoroState.Run :=
  ⟨rfl, rfl, rfl⟩

/-- C1 witness: the effect of `start()` on the freshly constructed
(stopped) timer. -/
theorem c1_start_effect_witness :
    PomodoroTimer.new.pomodoro_state = PomodoroState.Stop ∧
    (PomodoroTimer.new.start.remaining_sec = PomodoroTimer.new.remaining_sec ∧
     PomodoroTimer.new.start.clock_active = true ∧
     PomodoroTimer.new.start.pomodoro_state = PomodoroState.Run) :=
  ⟨by decide, c1_start_effect PomodoroTimer.new (by decide)⟩

/-- A stopped timer in phase `BeforeRelax` with an inactive clock is left
unchanged by clock ticks and by `Message::Refresh` polls: only a user toggle
can move it. -/
theorem beforeRelax_stable (es : List Event) :
    ∀ t : PomodoroTimer, t.pomodoro_phase = PomodoroPhase.BeforeRelax →
      t.pomodoro_state = PomodoroState.Stop → t.clock_active = false →
      (runEvents es t).pomodoro_phase = PomodoroPhase.BeforeRelax ∧
      (runEvents es t).pomodoro_state = PomodoroState.Stop ∧
      (runEvents es t).clock_active = false := by
  induction es with
  | nil =>
      intro t h1 h2 h3
      exact ⟨h1, h2, h3⟩
  | cons e es ih =>
      intro t h1 h2 h3
      have hstep : stepEvent e t = t := by
        cases e with
        | tick =>
            show clockTick t = t
            unfold clockTick
            rw [if_neg]
            rintro ⟨ha, _⟩
            rw [h3] at ha
            exact Bool.false_ne_true ha
        | refreshEv b =>
            show refresh b t = t
            unfold refresh
            rw [h1]
            split
            · rfl
            · rfl
      have hrw : runEvents (e :: es) t = runEvents es (stepEvent e t) := rfl
      rw [hrw, hstep]
      exact ih t h1 h2 h3

/-- C3: from a state with counter 0 in phase `Focus`, `on_tick_check` with
the window focused ends the call in phase `Relax` with run-state `Running`;
with the window unfocused it ends in phase `BeforeRelax` with run-state
`Stopped`, and any further sequence of clock ticks and refresh polls leaves
it there (only `on_user_toggle` can move it). -/
theorem c3_focus_zero_transition (t : PomodoroTimer) (es : List Event)
    (h0 : t.remaining_sec = 0) (hf : t.pomodoro_phase = PomodoroPhase.Focus) :
    (refresh true t).pomodoro_phase = PomodoroPhase.Relax ∧
    (refresh true t).pomodoro_state = PomodoroState.Run ∧
    (refresh false t).pomodoro_phase = PomodoroPhase.BeforeRelax ∧
    (refresh false t).pomodoro_state = PomodoroState.Stop ∧
    (runEvents es (refresh false t)).pomodoro_phase
      = PomodoroPhase.BeforeRelax ∧
    (runEvents es (refresh false t)).pomodoro_state = PomodoroState.Stop := by
  have hphase : (refresh false t).pomodoro_phase = PomodoroPhase.BeforeRelax := by
    simp [refresh, h0, hf, PomodoroTimer.stop]
  have hstate : (refresh false t).pomodoro_state = PomodoroState.Stop := by
    simp [refresh, h0, hf, PomodoroTimer.stop]
  have hactive : (refresh false t).clock_active = false := by
    simp [refresh, h0, hf, PomodoroTimer.stop]
  have hstable := beforeRelax_stable es (refresh false t) hphase hstate hactive
  refine ⟨?_, ?_, hphase, hstate, hstable.1, hstable.2.1⟩
  · simp [refresh, h0, hf, PomodoroTimer.stop, PomodoroTimer.start]
  · simp [refresh, h0, hf, PomodoroTimer.stop, PomodoroTimer.start]

/-- The state reached from the fresh timer by one user toggle and ten clock
ticks: phase `Focus` with counter 0. -/
def focusZeroState : PomodoroTimer :=
  clockTicks 10 (startTimer PomodoroTimer.new)

/-- C3 witness: the focus-zero transition evaluated on the state reached by
one toggle and ten ticks, with a two-event tail. -/
theorem c3_focus_zero_transition_witness :
    (focusZeroState.remaining_sec = 0 ∧
      focusZeroState.pomodoro_phase = PomodoroPhase.Focus) ∧
    ((refresh true focusZeroState).pomodoro_phase = PomodoroPhase.Relax ∧
     (refresh true focusZeroState).pomodoro_state = PomodoroState.Run ∧
     (refresh false focusZeroState).pomodoro_phase
        = PomodoroPhase.BeforeRelax ∧
     (refresh false focusZeroState).pomodoro_state = PomodoroState.Stop ∧
     (runEvents [Event.tick, Event.refreshEv true]
        (refresh false focusZeroState)).pomodoro_phase
        = PomodoroPhase.BeforeRelax ∧
     (runEvents [Event.tick, Event.refreshEv true]
        (refresh false focusZeroState)).pomodoro_state
        = PomodoroState.Stop) :=
  ⟨by decide,
   c3_focus_zero_transition focusZeroState [Event.tick, Event.refreshEv true]
     (by decide) (by decide)⟩

/-- No operation changes the phase sequence. -/
theorem stepOp_lengths (o : Op) (t : PomodoroTimer) :
    (stepOp o t).pomodoro_lengths = t.pomodoro_lengths := by
  cases o with
  | tick =>
      show (clockTick t).pomodoro_lengths = t.pomodoro_lengths
      unfold clockTick
      split
      · rfl
      · rfl
  | userToggle =>
      show (startTimer t).pomodoro_lengths = t.pomodoro_lengths
      unfold startTimer
      split
      · rfl
      · rfl
      · rfl
  | refreshOp b =>
      show (refresh b t).pomodoro_lengths = t.pomodoro_lengths
      unfold refresh
      split
      · split
        · rfl
        · split
          · rfl
          · rfl
        · rfl
        · rfl
      · rfl
  | startOp => rfl
  | pauseOp => rfl
  | resumeOp => rfl
  | stopOp => rfl
  | resetOp => rfl

/-- The `Relax` arm of the zero-reached transition: the position advances by
one, wrapping to 0 past the end of the sequence, the phase becomes
`BeforeFocus`, the clock is stopped, and the counter is reloaded with the
focus duration of the new position. -/
theorem refresh_relax_zero (t : PomodoroTimer) (b : Bool)
    (h0 : 0 < t.pomodoro_lengths.length)
    (hp : t.position < t.pomodoro_lengths.length)
    (hr : t.remaining_sec = 0)
    (hph : t.pomodoro_phase = PomodoroPhase.Relax) :
    (refresh b t).position = (t.position + 1) % t.pomodoro_lengths.length ∧
    (refresh b t).pomodoro_phase = PomodoroPhase.BeforeFocus ∧
    (refresh b t).remaining_sec =
      (t.pomodoro_lengths.getD
        ((t.position + 1) % t.pomodoro_lengths.length) ⟨0, 0⟩).focus := by
  have hmod :
      (if t.pomodoro_lengths.length ≤ t.position + 1 then 0
        else t.position + 1)
      = (t.position + 1) % t.pomodoro_lengths.length := by
    by_cases hle : t.pomodoro_lengths.length ≤ t.position + 1
    · rw [if_pos hle]
      have heq : t.position + 1 = t.pomodoro_lengths.length :=
        Nat.le_antisymm (Nat.succ_le_of_lt hp) hle
      rw [heq, Nat.mod_self]
    · rw [if_neg hle]
      have hlt : t.position + 1 < t.pomodoro_lengths.length :=
        Nat.lt_of_not_le hle
      rw [Nat.mod_eq_of_lt hlt]
  refine ⟨?_, ?_, ?_⟩ <;>
    simp [refresh, hr, hph, PomodoroTimer.stop, PomodoroTimer.currentLength,
      hmod]

/-- C4: for a non-empty phase sequence, the invariant
`position < length(sequence)` is preserved by every operation (the sequence
itself never changes); the `Relax`-to-`BeforeFocus` transition of the
zero-reached check advances the position by exactly one, wrapping modulo the
sequence length, ends in phase `BeforeFocus`, and reloads the counter with
the focus duration of the new position; every other call of the zero-reached
check leaves the position unchanged. -/
theorem c4_position_invariant (t : PomodoroTimer) (o : Op) (b : Bool)
    (h0 : 0 < t.pomodoro_lengths.length)
    (hp : t.position < t.pomodoro_lengths.length) :
    ((stepOp o t).position < (stepOp o t).pomodoro_lengths.length) ∧
    (t.remaining_sec = 0 → t.pomodoro_phase = PomodoroPhase.Relax →
      (refresh b t).position = (t.position + 1) % t.pomodoro_lengths.length ∧
      (refresh b t).pomodoro_phase = PomodoroPhase.BeforeFocus ∧
      (refresh b t).remaining_sec =
        (t.pomodoro_lengths.getD
          ((t.position + 1) % t.pomodoro_lengths.length) ⟨0, 0⟩).focus) ∧
    (¬ (t.remaining_sec = 0 ∧ t.pomodoro_phase = PomodoroPhase.Relax) →
      (refresh b t).position = t.position) := by
  refine ⟨?_, ?_, ?_⟩
  · rw [stepOp_lengths o t]
    cases o with
    | tick =>
        show (clockTick t).position < _
        unfold clockTick
        split
        · exact hp
        · exact hp
    | userToggle =>
        show (startTimer t).position < _
        unfold startTimer
        split
        · exact hp
        · exact hp
        · exact hp
    | refreshOp b =>
        show (refresh b t).position < _
        unfold refresh
        split
        · split
          · exact hp
          · split
            · exact hp
            · exact hp
          · exact hp
          · show (if t.pomodoro_lengths.length ≤ t.position + 1 then 0
                else t.position + 1) < t.pomodoro_lengths.length
            split
            · exact h0
            · omega
        · exact hp
    | startOp => exact hp
    | pauseOp => exact hp
    | resumeOp => exact hp
    | stopOp => exact hp
    | resetOp => exact h0
  · intro hr hph
    exact refresh_relax_zero t b h0 hp hr hph
  · intro hno
    unfold refresh
    by_cases hr : t.remaining_sec = 0
    · rw [if_pos hr]
      split
      · rfl
      · split
        · rfl
        · rfl
      · rfl
      · next hph => exact absurd ⟨hr, hph⟩ hno
    · rw [if_neg hr]

/-- The state reached from the fresh timer by toggle, ten ticks, an
unfocused refresh, another toggle and five ticks: phase `Relax` with
counter 0 at position 0 of the two-entry sequence. -/
def relaxZeroState : PomodoroTimer :=
  clockTicks 5
    (startTimer (refresh false (clockTicks 10 (startTimer PomodoroTimer.new))))

/-- C4 witness: the position invariant and the wrap computation evaluated on
the relax-zero state, with the unfocused refresh as the operation. -/
theorem c4_position_invariant_witness :
    (0 < relaxZeroState.pomodoro_lengths.length ∧
      relaxZeroState.position < relaxZeroState.pomodoro_lengths.length) ∧
    (((stepOp (Op.refreshOp false) relaxZeroState).position
        < (stepOp (Op.refreshOp false) relaxZeroState).pomodoro_lengths.length) ∧
     (relaxZeroState.remaining_sec = 0 →
      relaxZeroState.pomodoro_phase = PomodoroPhase.Relax →
      (refresh false relaxZeroState).position
        = (relaxZeroState.position + 1) % relaxZeroState.pomodoro_lengths.length ∧
      (refresh false relaxZeroState).pomodoro_phase = PomodoroPhase.BeforeFocus ∧
      (refresh false relaxZeroState).remaining_sec =
        (relaxZeroState.pomodoro_lengths.getD
          ((relaxZeroState.position + 1)
            % relaxZeroState.pomodoro_lengths.length) ⟨0, 0⟩).focus) ∧
     (¬ (relaxZeroState.remaining_sec = 0 ∧
          relaxZeroState.pomodoro_phase = PomodoroPhase.Relax) →
      (refresh false relaxZeroState).position = relaxZeroState.position)) :=
  ⟨by decide,
   c4_position_invariant relaxZeroState (Op.refreshOp false) false
     (by decide) (by decide)⟩

/-- C6: the view's duration selection yields `initial_secs = 0` in the
`Before` phases, and the freshly constructed timer is in such a phase with
10 remaining seconds; the percentage computation of the play/pause button
nevertheless always evaluates `1.0 - remaining / initial` on these values
(src/app.rs line 361 has no guard), so the division runs with divisor 0. -/
theorem c6_before_phase_divisor_zero :
    PomodoroTimer.new.pomodoro_phase = PomodoroPhase.BeforeFocus ∧
    initial_secs PomodoroTimer.new = 0 ∧
    PomodoroTimer.new.remaining_sec = 10 := by
  decide
